import Mathlib

/-
Shallow embedding of the PDF tutorial application (src/app.py) and proofs
about its extraction pipeline, blank-page filter, page-data store, search
and page-fetch routes.

Conventions of the embedding:
  * Python dicts that carry a fixed set of keys become structures.
  * Functions that may raise become `Except String` (the string is the
    exception message); functions that may return `None` become `Option`.
  * The filesystem-backed data store (`static/data/<id>.pkl`) becomes an
    explicit key-value map `Store`, passed and returned functionally; pickle
    serialization round-trips, so a stored blob is modelled as the document
    value itself.
  * The md5 hex digest used to derive a document id is abstracted as an
    arbitrary function `md5 : String → String` applied to the exact
    pre-image string the code builds; every theorem is uniform in it.
  * External PDF libraries (pdfplumber, pdf2image, PyMuPDF) are modelled by
    their observable answers: page counts, metadata, per-page pixmaps and
    per-batch conversion results, each of which may fail where the library
    call sits inside (or outside) a try/except in the code.
-/

namespace PdfTutor

/-- Python `str.strip()`: remove leading and trailing whitespace
(ASCII whitespace in this model). -/
def pyStrip (s : String) : String :=
  String.mk (((s.data.dropWhile Char.isWhitespace).reverse.dropWhile
    Char.isWhitespace).reverse)

/-- Title lookup used by the PyMuPDF converters:
`content['metadata'].get('title', 'PDF Tutorial') or 'PDF Tutorial'`
(the `or` replaces a falsy empty title). -/
def getTitle (metadata : List (String × String)) : String :=
  match metadata.lookup "title" with
  | some t => if t.isEmpty then "PDF Tutorial" else t
  | none => "PDF Tutorial"

/-- Title lookup used on the pdfplumber metadata path:
`content['metadata'].get('Title', 'PDF Tutorial')` (no falsy fallback). -/
def getTitlePdfplumber (metadata : List (String × String)) : String :=
  (metadata.lookup "Title").getD "PDF Tutorial"

/-- A structured text block: `{'text': ..., 'bbox': ..., 'fontsize': ...}`
(coordinates modelled as integers). -/
structure TextBlock where
  text : String
  bbox : List Int
  fontsize : Int
deriving DecidableEq

/-- An extracted embedded image:
`{'path', 'bbox', 'index', 'width', 'height'}`. -/
structure ImageData where
  path : String
  bbox : List Int
  index : Nat
  width : Nat
  height : Nat
deriving DecidableEq

/-- One entry of `page_content['elements']`:
`{'type': 'text'|'image', 'content': ..., 'position': ...}`. -/
inductive PageElement where
  | textElem (tb : TextBlock) (position : Int)
  | imageElem (im : ImageData) (position : Int)
deriving DecidableEq

/-- The `position` key of a layout element. -/
def PageElement.position : PageElement → Int
  | .textElem _ p => p
  | .imageElem _ p => p

/-- A structured page (`extract_pdf_content_pymupdf` page dict). -/
structure StructuredPage where
  page_number : Nat
  text : String
  structured_text : List TextBlock
  images : List ImageData
  tables : List (List (List String))
  bbox : List Int
  elements : List PageElement
deriving DecidableEq

/-- Blank-page filter `is_blank_page(page_content)`.
A page is blank when it has no layout elements, no structured text blocks,
no images or tables, and its stripped text is not longer than 20
characters (`text and len(text) > 20` is the code's substantial-text test). -/
def is_blank_page (p : StructuredPage) : Bool :=
  let text := pyStrip p.text
  let has_content_elements := decide (0 < p.elements.length)
  let has_structured_text := decide (0 < p.structured_text.length)
  let has_media := decide (0 < p.images.length) || decide (0 < p.tables.length)
  let has_substantial_text := decide (0 < text.length) && decide (20 < text.length)
  let has_content := has_content_elements || has_structured_text || has_media ||
    has_substantial_text
  !has_content

/-- The normalized document dict
`{'pages': ..., 'total_pages': ..., 'title': ..., 'metadata': ...}`,
parametric in the page shape (structured or rasterized). -/
structure Content (π : Type) where
  pages : List π
  total_pages : Nat
  title : String
  metadata : List (String × String)
deriving DecidableEq

/-- The on-disk page-data store `static/data/<id>.pkl`, as a map from id to
stored document. -/
def Store (π : Type) := String → Option (Content π)

/-- The id derivation inside `save_pdf_data`:
`hashlib.md5(f"{filename}_{len(pdf_content['pages'])}_{pdf_content['total_pages']}".encode()).hexdigest()`.
`md5` abstracts the md5 hex digest (a function of the pre-image string). -/
def pdf_id {π : Type} (md5 : String → String) (filename : String)
    (c : Content π) : String :=
  md5 (filename ++ "_" ++ toString c.pages.length ++ "_" ++ toString c.total_pages)

/-- Embedding of `save_pdf_data(pdf_content, filename)`: derive the id and write the
serialized document under it, returning the id (and the updated store). -/
def save_pdf_data {π : Type} (md5 : String → String) (c : Content π)
    (filename : String) (s : Store π) : String × Store π :=
  let id := pdf_id md5 filename c
  (id, fun k => if k = id then some c else s k)

/-- Embedding of `load_pdf_data(pdf_id)`: read the blob back, `none` when missing (or on a
deserialization error). -/
def load_pdf_data {π : Type} (id : String) (s : Store π) : Option (Content π) :=
  s id

/-- The persistence step of the upload route: a successful extraction is
saved via `save_pdf_data`; a raised extraction error reaches the route's
`except` handler and nothing is saved. -/
def upload_pipeline {π : Type} (md5 : String → String)
    (extracted : Except String (Content π)) (filename : String) (s : Store π) :
    Except String String × Store π :=
  match extracted with
  | .ok c =>
    let r := save_pdf_data md5 c filename s
    (.ok r.1, r.2)
  | .error e => (.error e, s)

/-- A rendered pixmap (PyMuPDF `page.get_pixmap`) or a converted page image
(pdf2image): just its dimensions. -/
structure RasterPix where
  width : Nat
  height : Nat
deriving DecidableEq

/-- A rasterized page dict (`'type': 'image'` entries). -/
structure RasterPage where
  page_number : Nat
  image_path : String
  width : Nat
  height : Nat
  text : String
  pageType : String
deriving DecidableEq

/-- An opened PyMuPDF document: page count, metadata, and for each 0-based
page index the rendered pixmap, or `none` when rendering that page raises. -/
structure FitzDoc where
  page_count : Nat
  metadata : List (String × String)
  pix : Nat → Option RasterPix

/-- The pdf2image path: pdfplumber metadata plus the batch converter
`convert_from_path(..., first_page=start+1, last_page=end)`, modelled as a
function of the loop's `start_page` and `end_page` that may raise per batch. -/
structure Pdf2ImageDoc where
  page_count : Nat
  metadata : List (String × String)
  convert : Nat → Nat → Except String (List RasterPix)

/-- The page dict built for page index `i` by the PyMuPDF converters. -/
def mkRasterPage (i : Nat) (pix : RasterPix) : RasterPage :=
  { page_number := i + 1
    image_path := "static/extracted/page_" ++ toString (i + 1) ++ ".jpg"
    width := pix.width
    height := pix.height
    text := ""
    pageType := "image" }

/-- Embedding of `convert_pdf_to_images_pymupdf(pdf_path)`: raises when PyMuPDF is
unavailable or opening the document raises (the `Except` input); otherwise
converts each page, skipping (`continue`) pages whose conversion raises,
and finally overwrites `total_pages` with `len(pages)`. -/
def convert_pdf_to_images_pymupdf (doc : Except String FitzDoc) :
    Except String (Content RasterPage) :=
  doc.map (fun d =>
    let pages := (List.range d.page_count).filterMap
      (fun i => (d.pix i).map (mkRasterPage i))
    { pages := pages
      total_pages := pages.length
      title := getTitle d.metadata
      metadata := d.metadata })

/-- Embedding of `convert_pdf_to_images_pymupdf_with_progress(pdf_path)`: identical to
`convert_pdf_to_images_pymupdf` except for session progress writes, which
do not affect the returned content. -/
def convert_pdf_to_images_pymupdf_with_progress :
    Except String FitzDoc → Except String (Content RasterPage) :=
  convert_pdf_to_images_pymupdf

/-- The pdf2image batch loop shared by `convert_pdf_to_images` and
`extract_pdf_content_with_progress`: batch size 50 above 200 pages else 100,
`for start_page in range(0, total_pages, batch_size)`, a failing batch is
logged and skipped (`continue`), surviving images get
`page_num = start_page + i + 1`. -/
def pdf2imageBatches (total : Nat)
    (conv : Nat → Nat → Except String (List RasterPix)) : List RasterPage :=
  let batch_size := if total > 200 then 50 else 100
  ((List.range' 0 ((total + batch_size - 1) / batch_size) batch_size).map
    (fun start_page =>
      let end_page := min (start_page + batch_size) total
      match conv start_page end_page with
      | .error _ => ([] : List RasterPage)
      | .ok imgs => imgs.enum.map (fun p =>
          ({ page_number := start_page + p.1 + 1
             image_path := "static/extracted/page_" ++
               toString (start_page + p.1 + 1) ++ ".jpg"
             width := p.2.width
             height := p.2.height
             text := ""
             pageType := "image" } : RasterPage)))).flatten

/-- The claim-side page numbering of the pdf2image batch loop: a surviving
batch starting at `start_page` with `k` returned images contributes the
consecutive original 1-based numbers `start_page + 1, ..., start_page + k`;
a failed batch contributes nothing, leaving a gap in the numbering. -/
def pdf2imageBatchNumbers (total : Nat)
    (conv : Nat → Nat → Except String (List RasterPix)) : List Nat :=
  let batch_size := if total > 200 then 50 else 100
  ((List.range' 0 ((total + batch_size - 1) / batch_size) batch_size).map
    (fun start_page =>
      match conv start_page (min (start_page + batch_size) total) with
      | .error _ => ([] : List Nat)
      | .ok imgs => List.range' (start_page + 1) imgs.length)).flatten

/-- The content built by a successful pdf2image run: batches plus final
`content['total_pages'] = len(content['pages'])`. -/
def pdf2imageContent (d : Pdf2ImageDoc) : Content RasterPage :=
  let pages := pdf2imageBatches d.page_count d.convert
  { pages := pages
    total_pages := pages.length
    title := getTitlePdfplumber d.metadata
    metadata := d.metadata }

/-- Embedding of `convert_pdf_to_images(pdf_path)`: try the pdf2image path (whose
document-level failures are import errors or metadata/setup exceptions);
on any such failure fall back to `convert_pdf_to_images_pymupdf`, whose own
exception propagates to the caller unchanged. -/
def convert_pdf_to_images (pdf2image : Except String Pdf2ImageDoc)
    (fallback : Except String FitzDoc) : Except String (Content RasterPage) :=
  match pdf2image with
  | .ok d => .ok (pdf2imageContent d)
  | .error _ => convert_pdf_to_images_pymupdf fallback

/-- Embedding of `extract_pdf_content_with_progress(pdf_path)`: same fallback structure as
`convert_pdf_to_images`, with session progress writes that do not affect the
returned content; a failure of the fallback propagates unchanged. -/
def extract_pdf_content_with_progress (pdf2image : Except String Pdf2ImageDoc)
    (fallback : Except String FitzDoc) : Except String (Content RasterPage) :=
  match pdf2image with
  | .ok d => .ok (pdf2imageContent d)
  | .error _ => convert_pdf_to_images_pymupdf_with_progress fallback

/-- Embedding of `extract_pdf_content(pdf_path)`, which simply delegates. -/
def extract_pdf_content (pdf2image : Except String Pdf2ImageDoc)
    (fallback : Except String FitzDoc) : Except String (Content RasterPage) :=
  convert_pdf_to_images pdf2image fallback

/-- Outcome of the structured text-extraction `try` block on one page:
either it completes with the raw `page.get_text()` string and the line
blocks appended from `page.get_text("dict")`, or it raises after having
appended `leftover` blocks (each appended block had passed the
`line_text.strip()` test before the raise). -/
inductive TextResult where
  | completed (raw : String) (lines : List TextBlock)
  | failed (leftover : List TextBlock)

/-- One entry of `page.get_images(full=True)` together with the observable
behaviour of processing it: whether its per-image `try` succeeds, whether
`pix.n < 5`, the pixmap dimensions, and `page.get_image_rects(xref)`. -/
structure ImageInput where
  extractOk : Bool
  pixSmall : Bool
  width : Nat
  height : Nat
  rects : List (List Int)

/-- Embedding of `img_rects[0] if img_rects else [0, 0, pix.width, pix.height]`. -/
def imageBBox (inp : ImageInput) : List Int :=
  inp.rects.headD [0, 0, (inp.width : Int), (inp.height : Int)]

/-- Processing of one embedded image on page index `i`: appended only when
its `try` body succeeds and `pix.n < 5`; a raising image is logged and
skipped. -/
def processImage (i : Nat) (imgIdx : Nat) (inp : ImageInput) :
    Option ImageData :=
  if inp.extractOk && inp.pixSmall then
    some { path := "static/extracted/page_" ++ toString (i + 1) ++ "_img_" ++
             toString imgIdx ++ ".png"
           bbox := imageBBox inp
           index := imgIdx
           width := inp.width
           height := inp.height }
  else none

/-- The observable inputs for building one structured page: the text `try`
outcome, whether the surrounding `page.get_images` call succeeds, the image
entries, and `page.rect`. -/
structure PageInput where
  textRes : TextResult
  imagesOk : Bool
  images : List ImageInput
  rectBBox : List Int

/-- Stable insertion of an element into a position-sorted element list. -/
def insertSorted (e : PageElement) : List PageElement → List PageElement
  | [] => [e]
  | x :: xs =>
    if x.position ≤ e.position then x :: insertSorted e xs else e :: x :: xs

/-- Embedding of `page_content['elements'].sort(key=lambda x: x['position'])`. -/
def sortByPosition : List PageElement → List PageElement
  | [] => []
  | x :: xs => insertSorted x (sortByPosition xs)

/-- The placeholder text set when text extraction raises on page index `i`
(0-based): `f"[Text extraction failed for page {i+1}]"`. -/
def failMsg (n : Nat) : String :=
  "[Text extraction failed for page " ++ toString n ++ "]"

/-- Build the page dict for 0-based page index `i` in
`extract_pdf_content_pymupdf`: strip the raw text (only when non-empty),
keep the line blocks whose stripped text is non-empty, fall back to the
placeholder text when the text `try` raises (keeping the blocks appended
before the raise), process images, and sort elements by vertical position.
The PyMuPDF structured path never fills `tables`. -/
def buildStructuredPage (i : Nat) (inp : PageInput) : StructuredPage :=
  let textPart : String × List TextBlock :=
    match inp.textRes with
    | .completed raw lines =>
      (if raw.isEmpty then "" else pyStrip raw,
       lines.filter (fun tb => !(pyStrip tb.text).isEmpty))
    | .failed leftover => (failMsg (i + 1), leftover)
  let blocks := textPart.2
  let textElems := blocks.map (fun tb => PageElement.textElem tb (tb.bbox.getD 1 0))
  let imgDatas :=
    if inp.imagesOk then
      inp.images.enum.filterMap (fun p => processImage i p.1 p.2)
    else []
  let imgElems := imgDatas.map (fun im => PageElement.imageElem im (im.bbox.getD 1 0))
  { page_number := i + 1
    text := textPart.1
    structured_text := blocks
    images := imgDatas
    tables := []
    bbox := inp.rectBBox
    elements := sortByPosition (textElems ++ imgElems) }

/-- A successfully opened document for the structured PyMuPDF extractor. -/
structure SDoc where
  metadata : List (String × String)
  pages : List PageInput

/-- Embedding of `extract_pdf_content_pymupdf(pdf_path)` on an opened document: build each
page, drop blank pages, renumber the survivors contiguously from 1, and
overwrite `total_pages` with the surviving count. -/
def extract_pdf_content_pymupdf (d : SDoc) : Content StructuredPage :=
  let built := d.pages.enum.map (fun p => buildStructuredPage p.1 p.2)
  let kept := built.filter (fun p => !is_blank_page p)
  let pages := kept.enum.map (fun p => { p.2 with page_number := p.1 + 1 })
  { pages := pages
    total_pages := pages.length
    title := getTitle d.metadata
    metadata := d.metadata }

/-- Does `query` occur in `text` at position `p`? (`text[p:p+len(query)] == query`.) -/
def matchesAt (text query : List Char) (p : Nat) : Bool :=
  query.isPrefixOf (text.drop p)

/-- Embedding of `text.find(query, start)` for a non-empty query: the least position
`p ≥ start` at which `query` occurs, `none` standing for Python's `-1`. -/
def findFrom (text query : List Char) (start : Nat) : Option Nat :=
  (List.range' start (text.length - start)).find? (fun p => matchesAt text query p)

/-- The `while True` scan of the search route: find the next occurrence from
`start`, record it, continue from `pos + 1`.  The loop needs at most
`text.length + 1` iterations, so it is given that much fuel. -/
def occurrencesAux (text query : List Char) : Nat → Nat → List Nat
  | 0, _ => []
  | fuel + 1, start =>
    match findFrom text query start with
    | none => []
    | some pos => pos :: occurrencesAux text query fuel (pos + 1)

/-- All match start positions reported by the search loop on one page. -/
def occurrences (text query : List Char) : List Nat :=
  occurrencesAux text query (text.length + 1) 0

/-- One search match
`{'position', 'context', 'highlight_start', 'highlight_end'}`. -/
structure SearchMatch where
  position : Nat
  context : String
  highlight_start : Nat
  highlight_end : Nat
deriving DecidableEq

/-- Python slice `s[a:b]` (for `a ≤ b`). -/
def strSlice (s : String) (a b : Nat) : String :=
  String.mk ((s.data.drop a).take (b - a))

/-- The match record built for position `pos`:
`context_start = max(0, pos - 50)` (truncated subtraction),
`context_end = min(len(text), pos + len(query) + 50)`; the context slice is
taken from the page's original (uncased) text, whose length equals the
lowercased text's length. -/
def mkMatch (pageText query : String) (pos : Nat) : SearchMatch :=
  let context_start := pos - 50
  let context_end := min pageText.length (pos + query.length + 50)
  { position := pos
    context := strSlice pageText context_start context_end
    highlight_start := pos - context_start
    highlight_end := pos - context_start + query.length }

/-- The per-page body of the search route (query already stripped and
lowercased by the route): scan the lowercased page text and build a match
record per occurrence. -/
def searchPage (pageText query : String) : List SearchMatch :=
  let lowered := pageText.data.map Char.toLower
  (occurrences lowered query.data).map (fun pos => mkMatch pageText query pos)

/-- The `/api/search` route over a loaded document: empty query (or no/failed
document) gives no results; otherwise pages with at least one match are
reported in page order. -/
def search (query0 : String) (pdf_content : Option (Content RasterPage)) :
    List (Nat × List SearchMatch) :=
  let query := String.mk ((pyStrip query0).data.map Char.toLower)
  if query.isEmpty then []
  else
    match pdf_content with
    | none => []
    | some c =>
      c.pages.filterMap (fun pg =>
        let ms := searchPage pg.text query
        if ms.isEmpty then none else some (pg.page_number, ms))

/-- Embedding of `os.path.basename`: the part after the last slash. -/
def baseName (s : String) : String :=
  String.mk ((s.data.reverse.takeWhile (fun c => c != '/')).reverse)

/-- One fuel-indexed step list of Python `str.replace(old, new)` over
character lists: at each position, if `old` occurs there it is replaced and
the scan continues after it, otherwise the character is kept.  For a
non-empty `old` each step consumes at least one character, so `l.length`
fuel suffices. -/
def pyReplaceAux (old new : List Char) : Nat → List Char → List Char
  | 0, l => l
  | fuel + 1, l =>
    match l with
    | [] => []
    | c :: rest =>
      if old.isPrefixOf (c :: rest) then
        new ++ pyReplaceAux old new fuel ((c :: rest).drop old.length)
      else
        c :: pyReplaceAux old new fuel rest

/-- Python `str.replace(old, new)` for the non-empty patterns the code uses
(the page route replaces the literal `"static/"`). -/
def pyReplace (old new l : List Char) : List Char :=
  if old.isEmpty then l else pyReplaceAux old new l.length l

/-- The image-path-to-URL rewrite in the page route: an empty stored path
falls back to `extracted/page_<n>.jpg`; a path under `static/` has that
occurrence removed (`str.replace` removes every occurrence); any other path
is rebased under `extracted/`. -/
def to_image_url (image_path : String) (page_num : Nat) : String :=
  if image_path.isEmpty then "extracted/page_" ++ toString page_num ++ ".jpg"
  else if "static/".data.isPrefixOf image_path.data then
    String.mk (pyReplace "static/".data "".data image_path.data)
  else "extracted/" ++ baseName image_path

/-- The JSON answer of `/api/page/<int:page_num>` (its `success` payload). -/
structure PageApiResponse where
  page_number : Nat
  image_url : String
  width : Nat
  height : Nat
  total_pages : Nat
  current_page : Nat
deriving DecidableEq

/-- Embedding of `get_page(page_num)` after session lookup: `none` input models a missing
or unloadable stored document; a page number outside `[1, total_pages]` is
rejected before any indexing; otherwise the response is built from
`pdf_content['pages'][page_num - 1]` (an index past the end of `pages`
would raise, modelled as the distinguished `IndexError` result). The Flask
`<int:..>` converter only matches digit strings, so `page_num` is a `Nat`. -/
def get_page (pdf_content : Option (Content RasterPage)) (page_num : Nat) :
    Except String PageApiResponse :=
  match pdf_content with
  | none => .error "PDF data not found"
  | some c =>
    if page_num < 1 ∨ page_num > c.total_pages then .error "Invalid page number"
    else
      match c.pages[page_num - 1]? with
      | none => .error "IndexError"
      | some p =>
        .ok { page_number := p.page_number
              image_url := "/static/" ++ to_image_url p.image_path page_num
              width := p.width
              height := p.height
              total_pages := c.total_pages
              current_page := page_num }

/-- A structured page whose only content is its plain text. -/
def pageOnlyText (t : String) : StructuredPage :=
  { page_number := 1
    text := t
    structured_text := []
    images := []
    tables := []
    bbox := []
    elements := [] }

/-- The content produced for a zero-page document with empty metadata. -/
def emptyRasterContent : Content RasterPage :=
  { pages := [], total_pages := 0, title := "PDF Tutorial", metadata := [] }

/-- A concrete rasterized page used in witnesses. -/
def samplePage : RasterPage :=
  { page_number := 1
    image_path := "static/extracted/page_1.jpg"
    width := 5
    height := 7
    text := ""
    pageType := "image" }

/-- A concrete one-page rasterized document used in witnesses. -/
def sampleContent : Content RasterPage :=
  { pages := [samplePage], total_pages := 1, title := "t", metadata := [] }

/-- A page input whose text extraction raises, used in witnesses. -/
def failedPageInput : PageInput :=
  { textRes := .failed [], imagesOk := true, images := [], rectBBox := [] }

/-- A one-page structured document whose page's text extraction raises. -/
def failedSDoc : SDoc :=
  { metadata := [], pages := [failedPageInput] }

/-- The claim-side context-window start, written as in the spec:
`max(0, p - 50)` over the integers. -/
def specContextStart (p : Nat) : Nat := (max 0 ((p : Int) - 50)).toNat

/-- The claim-side context-window end: `min(len(T), p + L + 50)`. -/
def specContextEnd (t q : String) (p : Nat) : Nat :=
  min t.length (p + q.length + 50)

/-
Theorems.  First generic helper lemmas, then one theorem per claim.
-/

/-- Appending strings appends their character lists. -/
theorem string_data_append (a b : String) : (a ++ b).data = a.data ++ b.data := by
  cases a; cases b; rfl

/-- String length is the length of the character list. -/
theorem string_length_eq (s : String) : s.length = s.data.length := rfl

/-- Lemma: `dropWhile` is the identity on a list whose head fails the predicate. -/
theorem dropWhile_eq_self_of_head (p : Char → Bool) (l : List Char)
    (h : ∀ c, l.head? = some c → p c = false) : l.dropWhile p = l := by
  cases l with
  | nil => rfl
  | cons x xs => rw [List.dropWhile_cons, h x rfl]; simp

/-- Lemma: `pyStrip` is the identity on a string with no leading or trailing
whitespace. -/
theorem pyStrip_eq_self (s : String)
    (h1 : ∀ c, s.data.head? = some c → Char.isWhitespace c = false)
    (h2 : ∀ c, s.data.reverse.head? = some c → Char.isWhitespace c = false) :
    pyStrip s = s := by
  obtain ⟨l⟩ := s
  show String.mk _ = _
  rw [dropWhile_eq_self_of_head _ _ h1, dropWhile_eq_self_of_head _ _ h2,
    List.reverse_reverse]

/-- The character list of the text-extraction placeholder message, split at
its closing bracket. -/
theorem failMsg_data_concat (n : Nat) :
    (failMsg n).data =
      ("[Text extraction failed for page ".data ++ (toString n).data) ++
        [']'] := by
  unfold failMsg
  rw [string_data_append, string_data_append]

/-- The placeholder message is longer than 20 characters. -/
theorem failMsg_length (n : Nat) : 20 < (failMsg n).length := by
  unfold failMsg
  rw [String.length_append, String.length_append]
  have h : "[Text extraction failed for page ".length = 33 := by decide
  omega

/-- The placeholder message starts with an opening bracket. -/
theorem failMsg_head (n : Nat) : (failMsg n).data.head? = some '[' := by
  rw [failMsg_data_concat]
  rw [show "[Text extraction failed for page ".data =
    '[' :: "Text extraction failed for page ".data from by decide]
  rfl

/-- The placeholder message ends with a closing bracket. -/
theorem failMsg_revhead (n : Nat) :
    (failMsg n).data.reverse.head? = some ']' := by
  rw [failMsg_data_concat, List.reverse_append]
  rfl

/-- Stripping the placeholder message changes nothing. -/
theorem pyStrip_failMsg (n : Nat) : pyStrip (failMsg n) = failMsg n := by
  apply pyStrip_eq_self
  · intro c hc
    rw [failMsg_head n] at hc
    injection hc with h
    rw [← h]
    decide
  · intro c hc
    rw [failMsg_revhead n] at hc
    injection hc with h
    rw [← h]
    decide

/-- The page-data-store round trip (claim C8's core):
writing a document and reading back under the returned id yields the same
document value. -/
theorem save_then_load {π : Type} (md5 : String → String) (d : Content π)
    (f : String) (s : Store π) :
    load_pdf_data (save_pdf_data md5 d f s).1 (save_pdf_data md5 d f s).2 =
      some d := by
  simp [load_pdf_data, save_pdf_data]

/-- C8: Store round-trip: for every Document d and filename f,
load(save(d, f)) returns a Document equal to d in all fields (content
equality of pages, title, metadata, and total page count). The store is the
id-indexed blob map; pickle serialization is modelled as the identity on
document values. -/
theorem C8_store_roundtrip :
    ∀ (π : Type) (md5 : String → String) (d : Content π) (f : String)
      (s : Store π),
      load_pdf_data (save_pdf_data md5 d f s).1 (save_pdf_data md5 d f s).2 =
        some d := by
  intro π md5 d f s
  exact save_then_load md5 d f s

/-- C5: the DocumentId returned by save is a deterministic function of the
origin filename and the page count only (for documents, which satisfy the
data-model invariant `total_pages = len(pages)`): equal filenames and equal
page counts give equal ids, and the second save overwrites the
first's stored blob (loading the first id after both saves yields the
second document). -/
theorem C5_id_collision :
    ∀ (π : Type) (md5 : String → String) (d₁ d₂ : Content π) (f₁ f₂ : String)
      (s : Store π),
      f₁ = f₂ →
      d₁.pages.length = d₂.pages.length →
      d₁.total_pages = d₁.pages.length →
      d₂.total_pages = d₂.pages.length →
      (save_pdf_data md5 d₁ f₁ s).1 = (save_pdf_data md5 d₂ f₂ s).1 ∧
      load_pdf_data (save_pdf_data md5 d₁ f₁ s).1
        (save_pdf_data md5 d₂ f₂ (save_pdf_data md5 d₁ f₁ s).2).2 = some d₂ := by
  intro π md5 d₁ d₂ f₁ f₂ s hf hlen h₁ h₂
  have hid : pdf_id md5 f₁ d₁ = pdf_id md5 f₂ d₂ := by
    simp [pdf_id, hf, h₁, h₂, hlen]
  refine ⟨hid, ?_⟩
  simp [load_pdf_data, save_pdf_data, hid]

/-- Witness for C5 at two concrete distinct one-page documents sharing a
filename: same id, and the second save overwrites the first. -/
theorem C5_id_collision_witness :
    (save_pdf_data (fun x => x)
        ({ pages := [10], total_pages := 1, title := "t1", metadata := [] } :
          Content Nat) "doc.pdf" (fun _ => none)).1 =
      (save_pdf_data (fun x => x)
        ({ pages := [20], total_pages := 1, title := "t2", metadata := [] } :
          Content Nat) "doc.pdf" (fun _ => none)).1 ∧
    load_pdf_data
      (save_pdf_data (fun x => x)
        ({ pages := [10], total_pages := 1, title := "t1", metadata := [] } :
          Content Nat) "doc.pdf" (fun _ => none)).1
      (save_pdf_data (fun x => x)
        ({ pages := [20], total_pages := 1, title := "t2", metadata := [] } :
          Content Nat) "doc.pdf"
        (save_pdf_data (fun x => x)
          ({ pages := [10], total_pages := 1, title := "t1", metadata := [] } :
            Content Nat) "doc.pdf" (fun _ => none)).2).2 =
      some ({ pages := [20], total_pages := 1, title := "t2", metadata := [] } :
        Content Nat) :=
  C5_id_collision Nat (fun x => x) _ _ "doc.pdf" "doc.pdf" (fun _ => none)
    rfl rfl rfl rfl

/-- C1 (counterexample): when both backends raise, the surfaced error is
exactly the fallback backend's error; it does not contain the primary
backend's cause, so the claim's aggregated-message property fails at this
input. -/
theorem C1_counterexample :
    extract_pdf_content_with_progress
        (.error "pdf2image: cannot identify image file")
        (.error "fitz: cannot open broken document") =
      .error "fitz: cannot open broken document" ∧
    ¬ ("pdf2image: cannot identify image file".data <:+:
        "fitz: cannot open broken document".data) := by
  constructor
  · rfl
  · decide

/-- C1 (amended): if the primary backend (pdf2image) raises at the
document level and the fallback (PyMuPDF) also raises, the extraction fails
with the fallback backend's error alone (the primary's cause is only
logged), and no Document is persisted: the upload pipeline returns the
error and leaves the store unchanged. -/
theorem C1_total_failure :
    ∀ (e₁ e₂ : String) (md5 : String → String) (f : String)
      (s : Store RasterPage),
      extract_pdf_content_with_progress (.error e₁) (.error e₂) = .error e₂ ∧
      upload_pipeline md5
        (extract_pdf_content_with_progress (.error e₁) (.error e₂)) f s =
        (.error e₂, s) := by
  intro e₁ e₂ md5 f s
  exact ⟨rfl, rfl⟩

/-- A successful `convert_pdf_to_images_pymupdf` result stores the surviving
page count. -/
theorem pymupdf_ok_total (fb : Except String FitzDoc) (c : Content RasterPage)
    (h : convert_pdf_to_images_pymupdf fb = .ok c) :
    c.total_pages = c.pages.length := by
  cases fb with
  | ok d =>
    simp only [convert_pdf_to_images_pymupdf, Except.map] at h
    injection h with h'
    rw [← h']
  | error e => simp [convert_pdf_to_images_pymupdf, Except.map] at h

/-- C4: for every Document returned by a successful extraction run in any
mode (pdf2image batched converter, PyMuPDF raster fallback, progress
variant, structured PyMuPDF extractor), the stored total page count equals
the length of the pages sequence, recomputed after filtering, skipped pages
and failed batches. -/
theorem C4_total_pages :
    ∀ (p : Except String Pdf2ImageDoc) (fb : Except String FitzDoc) (d : SDoc)
      (c₁ c₂ c₃ : Content RasterPage),
      (convert_pdf_to_images p fb = .ok c₁ →
        c₁.total_pages = c₁.pages.length) ∧
      ((extract_pdf_content_pymupdf d).total_pages =
        (extract_pdf_content_pymupdf d).pages.length) ∧
      (extract_pdf_content_with_progress p fb = .ok c₂ →
        c₂.total_pages = c₂.pages.length) ∧
      (convert_pdf_to_images_pymupdf fb = .ok c₃ →
        c₃.total_pages = c₃.pages.length) := by
  intro p fb d c₁ c₂ c₃
  refine ⟨?_, rfl, ?_, fun h => pymupdf_ok_total fb c₃ h⟩
  · intro h
    cases p with
    | ok dd =>
      simp only [convert_pdf_to_images] at h
      injection h with h'
      rw [← h']
      rfl
    | error e =>
      simp only [convert_pdf_to_images] at h
      exact pymupdf_ok_total fb c₁ h
  · intro h
    cases p with
    | ok dd =>
      simp only [extract_pdf_content_with_progress] at h
      injection h with h'
      rw [← h']
      rfl
    | error e =>
      simp only [extract_pdf_content_with_progress,
        convert_pdf_to_images_pymupdf_with_progress] at h
      exact pymupdf_ok_total fb c₂ h

/-- Witness for C4 at concrete inputs of each mode. -/
theorem C4_total_pages_witness :
    (emptyRasterContent.total_pages = emptyRasterContent.pages.length) ∧
    (emptyRasterContent.total_pages = emptyRasterContent.pages.length) := by
  have h := C4_total_pages (.error "pdf2image not available")
    (.ok { page_count := 0, metadata := [], pix := fun _ => none })
    { metadata := [], pages := [] }
    emptyRasterContent emptyRasterContent emptyRasterContent
  exact ⟨h.1 rfl, h.2.2.2 rfl⟩

/-- C2 (counterexample): a page whose only content is a 20-character plain
text is treated as blank by the code (`len(text) > 20` is required for
substantial text), while the claim's "empty or shorter than 20 characters"
condition is false for it — so the claimed equivalence fails. -/
theorem C2_counterexample :
    is_blank_page (pageOnlyText "abcdefghijklmnopqrst") = true ∧
    ¬ ((pageOnlyText "abcdefghijklmnopqrst").elements = [] ∧
      (pageOnlyText "abcdefghijklmnopqrst").structured_text = [] ∧
      (pageOnlyText "abcdefghijklmnopqrst").images = [] ∧
      (pageOnlyText "abcdefghijklmnopqrst").tables = [] ∧
      ((pageOnlyText "abcdefghijklmnopqrst").text = "" ∨
        (pageOnlyText "abcdefghijklmnopqrst").text.length < 20)) := by
  constructor
  · decide
  · decide

/-- C2 (amended): `is_blank_page(page)` returns true iff the page has no
layout elements, no structured-text blocks, no images, no tables, and its
stripped plain text is at most 20 characters long; in particular a page
whose only content is a 3-character string is blank and a page whose only
content is 25 characters of plain text is not blank. -/
theorem C2_is_blank_iff :
    (∀ p : StructuredPage, is_blank_page p = true ↔
      (p.elements = [] ∧ p.structured_text = [] ∧ p.images = [] ∧
        p.tables = [] ∧ (pyStrip p.text).length ≤ 20)) ∧
    is_blank_page (pageOnlyText "123") = true ∧
    is_blank_page (pageOnlyText "abcdefghijklmnopqrstuvwxy") = false := by
  refine ⟨?_, by decide, by decide⟩
  intro p
  simp only [is_blank_page, Bool.not_eq_true', Bool.or_eq_false_iff,
    Bool.and_eq_false_iff, decide_eq_false_iff_not, Nat.not_lt,
    ← List.length_eq_zero]
  omega

/-- C3 (counterexample): the PyMuPDF raster converter on a 3-page document
whose second page fails to render returns pages numbered `[1, 3]` — not the
contiguous `[1, 2]` the claim requires. -/
theorem C3_counterexample :
    (convert_pdf_to_images_pymupdf
        (.ok { page_count := 3, metadata := [],
               pix := fun i => if i = 1 then none else some ⟨100, 200⟩ })).map
      (fun c => c.pages.map (fun p => p.page_number)) = .ok [1, 3] ∧
    ([1, 3] : List Nat) ≠ [1, 2] := by
  constructor
  · rfl
  · decide

/-- Renumbering an enumerated page list produces consecutive page numbers. -/
theorem enumFrom_renumber_numbers (l : List StructuredPage) :
    ∀ n : Nat,
      ((List.enumFrom n l).map
        (fun p => ({ p.2 with page_number := p.1 + 1 } : StructuredPage))).map
          (fun p => p.page_number) = List.range' (n + 1) l.length := by
  induction l with
  | nil => intro n; rfl
  | cons x xs ih =>
    intro n
    rw [List.enumFrom_cons]
    simp only [List.map_cons, List.length_cons, List.range'_succ]
    exact List.cons_eq_cons.mpr ⟨rfl, ih (n + 1)⟩

/-- Renumbering does not change page texts. -/
theorem enumFrom_renumber_texts (l : List StructuredPage) :
    ∀ n : Nat,
      ((List.enumFrom n l).map
        (fun p => ({ p.2 with page_number := p.1 + 1 } : StructuredPage))).map
          (fun p => p.text) = l.map (fun p => p.text) := by
  induction l with
  | nil => intro n; rfl
  | cons x xs ih =>
    intro n
    rw [List.enumFrom_cons]
    simp only [List.map_cons]
    rw [ih (n + 1)]

/-- Numbering one batch: the images of a batch starting at `start` are
numbered consecutively from `start + n + 1` when enumeration starts at `n`. -/
theorem enumFrom_batch_numbers (imgs : List RasterPix) (start : Nat) :
    ∀ n : Nat,
      (List.enumFrom n imgs).map (fun p => start + p.1 + 1) =
        List.range' (start + n + 1) imgs.length := by
  induction imgs with
  | nil => intro n; rfl
  | cons x xs ih =>
    intro n
    rw [List.enumFrom_cons]
    simp only [List.map_cons, List.length_cons, List.range'_succ]
    refine List.cons_eq_cons.mpr ⟨rfl, ?_⟩
    rw [ih (n + 1), show start + (n + 1) + 1 = start + n + 1 + 1 by omega]

/-- The pdf2image batch loop numbers its surviving pages by
`page_num = start_page + i + 1`: its page-number list is exactly
`pdf2imageBatchNumbers`, so a failed batch leaves a gap. -/
theorem pdf2image_batch_page_numbers (total : Nat)
    (conv : Nat → Nat → Except String (List RasterPix)) :
    (pdf2imageBatches total conv).map (fun p => p.page_number) =
      pdf2imageBatchNumbers total conv := by
  simp only [pdf2imageBatches, pdf2imageBatchNumbers]
  rw [List.map_flatten, List.map_map]
  congr 1
  congr 1
  funext start
  simp only [Function.comp]
  cases h : conv start (min (start + (if total > 200 then 50 else 100)) total) with
  | error e => rfl
  | ok imgs =>
    rw [List.map_map, List.enum_eq_enumFrom]
    have hb := enumFrom_batch_numbers imgs start 0
    rw [show start + 0 + 1 = start + 1 by omega] at hb
    exact hb

/-- Page numbers of the surviving raster pages are the original 1-based
input indices. -/
theorem raster_page_numbers (d : FitzDoc) :
    ∀ l : List Nat,
      ((l.filterMap (fun i => (d.pix i).map (mkRasterPage i))).map
        (fun p => p.page_number)) =
      (l.filter (fun i => (d.pix i).isSome)).map (fun i => i + 1) := by
  intro l
  induction l with
  | nil => rfl
  | cons x xs ih =>
    cases h : d.pix x with
    | none => simp [List.filterMap_cons, List.filter_cons, h, ih]
    | some pix => simp [List.filterMap_cons, List.filter_cons, h, ih, mkRasterPage]

/-- C3 (amended): structured-mode documents (`extract_pdf_content_pymupdf`)
have contiguous page numbers starting at 1 after blank filtering; the
rasterized converters do not renumber — the PyMuPDF converter keeps
`page_number = i + 1` for each surviving 0-based input index `i`, and the
pdf2image batch loop (in both `convert_pdf_to_images` and
`extract_pdf_content_with_progress`) keeps
`page_num = start_page + i + 1` per surviving batch — so pages dropped by
per-page or per-batch conversion failures leave gaps, as the concrete
two-batch run with a failed first batch shows (numbers `[101, 102]`). -/
theorem C3_renumbering :
    (∀ d : SDoc,
      (extract_pdf_content_pymupdf d).pages.map (fun p => p.page_number) =
        List.range' 1 (extract_pdf_content_pymupdf d).pages.length) ∧
    (∀ d : FitzDoc,
      (convert_pdf_to_images_pymupdf (.ok d)).map
        (fun c => c.pages.map (fun p => p.page_number)) =
      .ok (((List.range d.page_count).filter
        (fun i => (d.pix i).isSome)).map (fun i => i + 1))) ∧
    (∀ (total : Nat) (conv : Nat → Nat → Except String (List RasterPix)),
      (pdf2imageBatches total conv).map (fun p => p.page_number) =
        pdf2imageBatchNumbers total conv) ∧
    (∀ (d : Pdf2ImageDoc) (fb : Except String FitzDoc),
      (convert_pdf_to_images (.ok d) fb).map
        (fun c => c.pages.map (fun p => p.page_number)) =
        .ok (pdf2imageBatchNumbers d.page_count d.convert) ∧
      (extract_pdf_content_with_progress (.ok d) fb).map
        (fun c => c.pages.map (fun p => p.page_number)) =
        .ok (pdf2imageBatchNumbers d.page_count d.convert)) ∧
    ((pdf2imageBatches 150
        (fun start _ =>
          if start = 0 then .error "conversion failed"
          else .ok [{ width := 10, height := 10 }, { width := 10, height := 10 }])).map
      (fun p => p.page_number) = [101, 102] ∧
      ([101, 102] : List Nat) ≠ [1, 2]) := by
  refine ⟨?_, ?_, ?_, ?_, ?_, by decide⟩
  · intro d
    simp only [extract_pdf_content_pymupdf, List.enum_eq_enumFrom]
    rw [enumFrom_renumber_numbers]
    congr 1
    simp [List.enumFrom_length]
  · intro d
    simp only [convert_pdf_to_images_pymupdf, Except.map]
    rw [raster_page_numbers]
  · intro total conv
    exact pdf2image_batch_page_numbers total conv
  · intro d fb
    constructor
    · simp only [convert_pdf_to_images, pdf2imageContent, Except.map]
      rw [pdf2image_batch_page_numbers]
    · simp only [extract_pdf_content_with_progress, pdf2imageContent, Except.map]
      rw [pdf2image_batch_page_numbers]
  · rw [pdf2image_batch_page_numbers]
    decide

/-- A list element found by index appears in the enumeration, paired with
its index. -/
theorem mem_enumFrom_of_getElem? {α : Type} :
    ∀ (l : List α) (i : Nat) (a : α) (n : Nat),
      l[i]? = some a → (n + i, a) ∈ List.enumFrom n l := by
  intro l
  induction l with
  | nil => intro i a n h; simp at h
  | cons x xs ih =>
    intro i a n h
    cases i with
    | zero =>
      rw [List.getElem?_cons_zero] at h
      injection h with h'
      subst h'
      rw [List.enumFrom_cons]
      exact List.mem_cons_self _ _
    | succ j =>
      rw [List.getElem?_cons_succ] at h
      have hm := ih j a (n + 1) h
      rw [List.enumFrom_cons]
      rw [show n + (j + 1) = (n + 1) + j by omega]
      exact List.mem_cons_of_mem _ hm

/-- A page built from a raising text extraction carries the placeholder
message as its text. -/
theorem buildStructuredPage_failed_text (i : Nat) (inp : PageInput)
    (leftover : List TextBlock) (htr : inp.textRes = .failed leftover) :
    (buildStructuredPage i inp).text = failMsg (i + 1) := by
  simp only [buildStructuredPage, htr]

/-- A page built from a raising text extraction is never blank: its
placeholder text is longer than 20 characters. -/
theorem buildStructuredPage_failed_not_blank (i : Nat) (inp : PageInput)
    (leftover : List TextBlock) (htr : inp.textRes = .failed leftover) :
    is_blank_page (buildStructuredPage i inp) = false := by
  have htext : (buildStructuredPage i inp).text = failMsg (i + 1) :=
    buildStructuredPage_failed_text i inp leftover htr
  have hstrip : pyStrip (buildStructuredPage i inp).text = failMsg (i + 1) := by
    rw [htext, pyStrip_failMsg]
  have hlen : 20 < (pyStrip (buildStructuredPage i inp).text).length := by
    rw [hstrip]
    exact failMsg_length (i + 1)
  simp only [is_blank_page, hstrip]
  simp only [hstrip ▸ hlen, decide_eq_true_eq]
  have h0 : 0 < (failMsg (i + 1)).length := by
    have := failMsg_length (i + 1); omega
  have h20 : 20 < (failMsg (i + 1)).length := failMsg_length (i + 1)
  simp [h0, h20]

/-- C9: in structured extraction, a page whose text extraction raises still
produces a page whose plain text is exactly
`"[Text extraction failed for page N]"` (N the 1-based input page number);
the failure aborts neither the page (it survives the blank filter) nor the
document run (extraction is total and the page appears in the output). -/
theorem C9_text_failure_placeholder :
    ∀ (d : SDoc) (i : Nat) (inp : PageInput) (leftover : List TextBlock),
      d.pages[i]? = some inp →
      inp.textRes = .failed leftover →
      failMsg (i + 1) ∈
        (extract_pdf_content_pymupdf d).pages.map (fun p => p.text) := by
  intro d i inp leftover hget htr
  have htext : (buildStructuredPage i inp).text = failMsg (i + 1) :=
    buildStructuredPage_failed_text i inp leftover htr
  have hnb : is_blank_page (buildStructuredPage i inp) = false :=
    buildStructuredPage_failed_not_blank i inp leftover htr
  have h1 : (i, inp) ∈ d.pages.enum := by
    rw [List.enum_eq_enumFrom]
    have := mem_enumFrom_of_getElem? d.pages i inp 0 hget
    simpa using this
  have h2 : buildStructuredPage i inp ∈
      d.pages.enum.map (fun p => buildStructuredPage p.1 p.2) :=
    List.mem_map_of_mem _ h1
  have h3 : buildStructuredPage i inp ∈
      (d.pages.enum.map (fun p => buildStructuredPage p.1 p.2)).filter
        (fun p => !is_blank_page p) :=
    List.mem_filter.mpr ⟨h2, by rw [hnb]; rfl⟩
  simp only [extract_pdf_content_pymupdf, List.enum_eq_enumFrom]
  rw [enumFrom_renumber_texts]
  rw [← htext]
  exact List.mem_map_of_mem _ h3

/-- Witness for C9: a one-page document whose only page has a raising text
extraction yields a document containing the placeholder text. -/
theorem C9_text_failure_placeholder_witness :
    failMsg (0 + 1) ∈
      (extract_pdf_content_pymupdf failedSDoc).pages.map (fun p => p.text) :=
  C9_text_failure_placeholder failedSDoc 0 failedPageInput [] rfl rfl

/-- C10: page fetch guards its index. For every loaded document satisfying
the store invariant `total_pages = len(pages)`, a requested page number
strictly below 1 or above `total_pages` yields the invalid-page error
without indexing, and every page number within `[1, total_pages]` returns
the response built from `pages[n-1]`. -/
theorem C10_page_guard :
    ∀ (c : Content RasterPage) (n : Nat),
      c.total_pages = c.pages.length →
      ((n < 1 ∨ n > c.total_pages) →
        get_page (some c) n = .error "Invalid page number") ∧
      (1 ≤ n → n ≤ c.total_pages →
        ∃ p, c.pages[n - 1]? = some p ∧
          get_page (some c) n =
            .ok { page_number := p.page_number
                  image_url := "/static/" ++ to_image_url p.image_path n
                  width := p.width
                  height := p.height
                  total_pages := c.total_pages
                  current_page := n }) := by
  intro c n hinv
  constructor
  · intro h
    simp only [get_page]
    rw [if_pos h]
  · intro h1 h2
    have hidx : n - 1 < c.pages.length := by omega
    refine ⟨c.pages[n - 1], List.getElem?_eq_getElem hidx, ?_⟩
    simp only [get_page]
    rw [if_neg (by omega)]
    rw [List.getElem?_eq_getElem hidx]

/-- Witness for C10 on a concrete one-page document: page 2 is rejected,
page 1 returns the stored page. -/
theorem C10_page_guard_witness :
    (get_page (some sampleContent) 2 = .error "Invalid page number") ∧
    (get_page (some sampleContent) 1 =
      .ok { page_number := 1, image_url := "/static/extracted/page_1.jpg",
            width := 5, height := 7, total_pages := 1, current_page := 1 }) := by
  have h2 := (C10_page_guard sampleContent 2 rfl).1 (Or.inr (by decide))
  have h1 := (C10_page_guard sampleContent 1 rfl).2 (by decide) (by decide)
  obtain ⟨p, hp, hg⟩ := h1
  rw [show sampleContent.pages[0]? = some samplePage from rfl] at hp
  injection hp with hp'
  subst hp'
  exact ⟨h2, by rw [hg]; exact congrArg Except.ok (by decide)⟩

/-- What a successful `find?` over a consecutive range means: the result is
in range, satisfies the predicate, and is the least such position. -/
theorem find?_range'_some {p : Nat → Bool} :
    ∀ (n s a : Nat), (List.range' s n).find? p = some a →
      s ≤ a ∧ a < s + n ∧ p a = true ∧ ∀ q, s ≤ q → q < a → p q = false := by
  intro n
  induction n with
  | zero => intro s a h; simp [List.range'_zero] at h
  | succ m ih =>
    intro s a h
    rw [List.range'_succ] at h
    rw [List.find?_cons] at h
    cases hp : p s with
    | true =>
      simp only [hp] at h
      injection h with h'
      subst h'
      exact ⟨Nat.le_refl s, by omega, hp, fun q hq1 hq2 => absurd hq1 (by omega)⟩
    | false =>
      simp only [hp] at h
      obtain ⟨h1, h2, h3, h4⟩ := ih (s + 1) a h
      refine ⟨by omega, by omega, h3, ?_⟩
      intro q hq1 hq2
      rcases Nat.eq_or_lt_of_le hq1 with heq | hlt
      · rw [← heq]; exact hp
      · exact h4 q (by omega) hq2

/-- A failing `find?` over a consecutive range means no position in the
range satisfies the predicate. -/
theorem find?_range'_none {p : Nat → Bool} (n s : Nat)
    (h : (List.range' s n).find? p = none) :
    ∀ q, s ≤ q → q < s + n → p q = false := by
  intro q hq1 hq2
  have hm : q ∈ List.range' s n := List.mem_range'_1.mpr ⟨hq1, hq2⟩
  have := List.find?_eq_none.mp h q hm
  simpa using this

/-- The search loop, given enough fuel, collects exactly the matching
positions of the remaining range, in ascending order. -/
theorem occurrencesAux_eq (text query : List Char) :
    ∀ (fuel start : Nat), text.length + 1 ≤ fuel + start →
      occurrencesAux text query fuel start =
        (List.range' start (text.length - start)).filter
          (fun p => matchesAt text query p) := by
  intro fuel
  induction fuel with
  | zero =>
    intro start h
    rw [show text.length - start = 0 by omega]
    rfl
  | succ m ih =>
    intro start h
    rw [occurrencesAux]
    cases hf : findFrom text query start with
    | none =>
      simp only []
      symm
      rw [List.filter_eq_nil_iff]
      intro a ha
      rw [List.mem_range'_1] at ha
      rw [findFrom] at hf
      have := find?_range'_none (text.length - start) start hf a ha.1 ha.2
      simp [this]
    | some pos =>
      simp only []
      rw [findFrom] at hf
      obtain ⟨h1, h2, h3, h4⟩ := find?_range'_some (text.length - start) start pos hf
      have hposlen : pos < text.length := by omega
      rw [ih (pos + 1) (by omega)]
      have hsplit : List.range' start (text.length - start) =
          List.range' start (pos - start) ++ List.range' pos (text.length - pos) := by
        have happ := List.range'_append start (pos - start) (text.length - pos) 1
        rw [show start + 1 * (pos - start) = pos by omega] at happ
        rw [show (text.length - pos) + (pos - start) = text.length - start by
          omega] at happ
        exact happ.symm
      rw [hsplit, List.filter_append]
      have hnil : (List.range' start (pos - start)).filter
          (fun p => matchesAt text query p) = [] := by
        rw [List.filter_eq_nil_iff]
        intro a ha
        rw [List.mem_range'_1] at ha
        have := h4 a ha.1 (by omega)
        simp [this]
      rw [hnil, List.nil_append]
      rw [show text.length - pos = (text.length - (pos + 1)) + 1 by omega]
      rw [List.range'_succ]
      rw [List.filter_cons_of_pos h3]

/-- C6: the search loop advances by one character past each found start
position, so every occurrence start position of the query is reported —
overlapping ones included — in ascending order: `occurrences` equals the
filter of all matching positions over the text's index range; in
particular searching `"aa"` in `"aaaa"` yields positions 0, 1 and 2. -/
theorem C6_search_all_occurrences :
    (∀ text query : List Char, query ≠ [] →
      occurrences text query =
        (List.range text.length).filter (fun p => matchesAt text query p)) ∧
    occurrences "aaaa".data "aa".data = [0, 1, 2] := by
  constructor
  · intro text query _
    rw [occurrences]
    rw [occurrencesAux_eq text query (text.length + 1) 0 (by omega)]
    rw [Nat.sub_zero, ← List.range_eq_range']
  · decide

/-- Witness for C6 at a concrete text and non-empty query. -/
theorem C6_search_all_occurrences_witness :
    occurrences "ab".data "b".data =
      (List.range ("ab".data).length).filter
        (fun p => matchesAt "ab".data "b".data p) ∧
    occurrences "ab".data "b".data = [1] :=
  ⟨C6_search_all_occurrences.1 "ab".data "b".data (by decide), by decide⟩

/-- C7: every match record consists of the context window
`T[max(0, p-50) .. min(len(T), p+L+50)]` with
`highlight_start = p - max(0, p-50)` and
`highlight_end = highlight_start + L`; in particular the query `"the"`
against `"the cat sat"` gives one match at position 0 whose context is the
whole string with highlight span `(0, 3)`. -/
theorem C7_match_context :
    (∀ (t q : String) (p : Nat),
      mkMatch t q p =
        { position := p
          context := strSlice t (specContextStart p) (specContextEnd t q p)
          highlight_start := p - specContextStart p
          highlight_end := p - specContextStart p + q.length }) ∧
    searchPage "the cat sat" "the" =
      [{ position := 0, context := "the cat sat", highlight_start := 0,
         highlight_end := 3 }] := by
  constructor
  · intro t q p
    have h : specContextStart p = p - 50 := by
      unfold specContextStart
      omega
    simp only [mkMatch, specContextEnd, h]
  · decide

end PdfTutor
